import Mathlib

/-!
# VMC serial protocol driver: a shallow embedding

A Lean model of the vending-machine-controller (VMC) protocol driver
(`app/core/vmc_controller.py` and `app/services/dispense_service.py`).
Bytes are modelled as natural numbers (`< 256` where it matters), byte
strings as `List Nat`, Python dicts keyed by aisle number as functions
`Nat → Option _`, and opaque Python callables as values of an abstract
type parameter.
-/

namespace VMC

/-- `VendingMachineController.calculate_xor`: byte-wise XOR fold over a
byte string, starting from 0. -/
def calculate_xor (data : List Nat) : Nat :=
  data.foldl (fun acc b => acc ^^^ b) 0

/-- The `Command` enum of `vmc_controller.py`: the fixed closed set of
protocol command kinds. -/
inductive Command where
  | POLL
  | ACK
  | CHECK_AISLE
  | AISLE_STATUS_RESPONSE
  | SELECT_BUY
  | DISPENSING_STATUS
  | SELECT_AISLE
  | DRIVE_AISLE_DIRECT
  | AISLE_INFO
  | SET_AISLE_PRICE
  | SET_AISLE_INVENTORY
  | SET_AISLE_CAPACITY
  | SET_AISLE_COMMODITY
  | POS_DISPLAY
  | REQUEST_SYNC
  | REQUEST_MACHINE_STATUS
  | MACHINE_STATUS_RESPONSE
deriving DecidableEq, Repr

/-- The byte value of each `Command` enum member. -/
def Command.value : Command → Nat
  | .POLL => 0x41
  | .ACK => 0x42
  | .CHECK_AISLE => 0x01
  | .AISLE_STATUS_RESPONSE => 0x02
  | .SELECT_BUY => 0x03
  | .DISPENSING_STATUS => 0x04
  | .SELECT_AISLE => 0x05
  | .DRIVE_AISLE_DIRECT => 0x06
  | .AISLE_INFO => 0x11
  | .SET_AISLE_PRICE => 0x12
  | .SET_AISLE_INVENTORY => 0x13
  | .SET_AISLE_CAPACITY => 0x14
  | .SET_AISLE_COMMODITY => 0x15
  | .POS_DISPLAY => 0x24
  | .REQUEST_SYNC => 0x31
  | .REQUEST_MACHINE_STATUS => 0x51
  | .MACHINE_STATUS_RESPONSE => 0x52

/-- `Command(value)` lookup: `some` on a known command byte, `none`
otherwise (the Python `ValueError` branch). -/
def Command.fromByte : Nat → Option Command
  | 0x41 => some .POLL
  | 0x42 => some .ACK
  | 0x01 => some .CHECK_AISLE
  | 0x02 => some .AISLE_STATUS_RESPONSE
  | 0x03 => some .SELECT_BUY
  | 0x04 => some .DISPENSING_STATUS
  | 0x05 => some .SELECT_AISLE
  | 0x06 => some .DRIVE_AISLE_DIRECT
  | 0x11 => some .AISLE_INFO
  | 0x12 => some .SET_AISLE_PRICE
  | 0x13 => some .SET_AISLE_INVENTORY
  | 0x14 => some .SET_AISLE_CAPACITY
  | 0x15 => some .SET_AISLE_COMMODITY
  | 0x24 => some .POS_DISPLAY
  | 0x31 => some .REQUEST_SYNC
  | 0x51 => some .REQUEST_MACHINE_STATUS
  | 0x52 => some .MACHINE_STATUS_RESPONSE
  | _ => none

/-- The two-byte start-of-frame marker `VendingMachineController.STX`. -/
def STX : List Nat := [0xFA, 0xFB]

/-- `VendingMachineController.create_packet`:
`STX(2) || command(1) || len(1) || text(len) || xor(1)`. -/
def create_packet (command : Command) (text : List Nat) : List Nat :=
  let packet := STX ++ [command.value, text.length] ++ text
  packet ++ [calculate_xor packet]

/-- `VendingMachineController.parse_packet`: validates minimum length,
STX prefix, declared length, XOR checksum and command byte; returns the
decoded `(command, text)` on success and `none` on any failure. -/
def parse_packet (data : List Nat) : Option (Command × List Nat) :=
  if data.length < 5 then none
  else if data.take 2 ≠ STX then none
  else
    let command_value := data.getD 2 0
    let length := data.getD 3 0
    if data.length < 5 + length then none
    else
      let text := (data.drop 4).take length
      let xor_received := data.getD (4 + length) 0
      let xor_calculated := calculate_xor (data.take (4 + length))
      if xor_received ≠ xor_calculated then none
      else
        match Command.fromByte command_value with
        | some command => some (command, text)
        | none => none

/-- `bytes.find(STX)` on the receive buffer: index of the first
occurrence of the two-byte subsequence `0xFA 0xFB`, `none` when absent
(the Python `-1`). -/
def findSTX : List Nat → Option Nat
  | a :: b :: rest =>
    if a = 0xFA ∧ b = 0xFB then some 0
    else (findSTX (b :: rest)).map (· + 1)
  | _ => none

/-- Whether a byte string contains the two-byte STX marker as adjacent
bytes (used to describe garbage prefixes that cannot be mistaken for a
frame start). -/
def hasSTXPair : List Nat → Bool
  | a :: b :: rest => (decide (a = 0xFA ∧ b = 0xFB)) || hasSTXPair (b :: rest)
  | _ => false

/-- The inner frame-reassembly loop of
`VendingMachineController.listen_loop` (lines 242-266), run to
completion on a buffer: `while len(buffer) >= 5` find STX, discard
bytes before it, read the length byte, slice off the candidate packet,
parse it, and emit the parse on success.  The loop consumes at least 5
bytes per iteration, so a fuel of `buffer.length` (decremented once per
iteration) never runs out; the fuel-0 case returns the buffer unchanged,
matching the loop condition on short buffers.  Returns the list of
decoded frames in order and the remaining buffer. -/
def listen_decode : Nat → List Nat → List (Command × List Nat) × List Nat
  | 0, buffer => ([], buffer)
  | fuel + 1, buffer =>
    if buffer.length < 5 then ([], buffer)
    else
      match findSTX buffer with
      | none => ([], [])
      | some stx_index =>
        let b := buffer.drop stx_index
        if b.length < 5 then ([], b)
        else
          let length := b.getD 3 0
          let packet_length := 5 + length
          if b.length < packet_length then ([], b)
          else
            let packet := b.take packet_length
            let rest := b.drop packet_length
            let res := listen_decode fuel rest
            match parse_packet packet with
            | some f => (f :: res.1, res.2)
            | none => res

/-- One burst of `listen_loop` frame reassembly on a buffer. -/
def listen_loop (buffer : List Nat) : List (Command × List Nat) × List Nat :=
  listen_decode buffer.length buffer

/-- `VendingMachineController.get_next_comm_number`, as a pure function
of the stored counter: returns the current value and the advanced
counter `(n mod 255) + 1`. -/
def get_next_comm_number (comm_number : Nat) : Nat × Nat :=
  (comm_number, comm_number % 255 + 1)

/-- The stored `comm_number` after `k` calls to `get_next_comm_number`,
starting from the initial value 1 set in `__init__`. -/
def commAfter : Nat → Nat
  | 0 => 1
  | k + 1 => (get_next_comm_number (commAfter k)).2

/-- The value returned by the `(k+1)`-th call to
`get_next_comm_number` (0-indexed: `commCall 0` is the first call). -/
def commCall (k : Nat) : Nat :=
  (get_next_comm_number (commAfter k)).1

/-- The `DispensingStatus` enum. -/
inductive DispensingStatus where
  | DISPENSING
  | SUCCESS
  | JAMMED
  | MOTOR_DOESNT_STOP
  | MOTOR_DOESNT_EXIST
deriving DecidableEq, Repr

/-- `DispensingStatus(value)` lookup; `none` is the Python
`ValueError` branch of `handle_dispensing_status`, which stores
`status = None`. -/
def DispensingStatus.fromByte : Nat → Option DispensingStatus
  | 0x01 => some .DISPENSING
  | 0x02 => some .SUCCESS
  | 0x03 => some .JAMMED
  | 0x04 => some .MOTOR_DOESNT_STOP
  | 0x06 => some .MOTOR_DOESNT_EXIST
  | _ => none

/-- The `AisleStatus` enum. -/
inductive AisleStatus where
  | NORMAL
  | OUT_OF_STOCK
  | DOESNT_EXIST
  | PAUSED
deriving DecidableEq, Repr

/-- `AisleStatus(value)` lookup; `none` on unknown codes. -/
def AisleStatus.fromByte : Nat → Option AisleStatus
  | 0x01 => some .NORMAL
  | 0x02 => some .OUT_OF_STOCK
  | 0x03 => some .DOESNT_EXIST
  | 0x04 => some .PAUSED
  | _ => none

/-- The `DispenseResult` dataclass.  `status` is an `Option` because
the Python code stores `None` there on an unknown status code. -/
structure DispenseResult where
  success : Bool
  aisle_number : Nat
  status : Option DispensingStatus
  message : String
deriving DecidableEq, Repr

/-- The `status_messages.get(status, "Unknown error")` lookup in the
failure branch of `handle_dispensing_status`. -/
def failure_message : Option DispensingStatus → String
  | some .JAMMED => "Product jammed"
  | some .MOTOR_DOESNT_STOP => "Motor error - doesn't stop"
  | some .MOTOR_DOESNT_EXIST => "Motor not found"
  | _ => "Unknown error"

/-- `struct.unpack(">H", data[2:4])[0]`: big-endian 16-bit aisle
number from bytes 2 and 3 of the payload. -/
def aisle_of (data : List Nat) : Nat :=
  256 * data.getD 2 0 + data.getD 3 0

/-- `VendingMachineController.handle_dispensing_status`, as a pure
function of the `dispense_callbacks` table (a map from aisle number to
an opaque callback of type `κ`) and the frame text.  Returns the new
table and the list of `(callback, result)` invocations performed. -/
def handle_dispensing_status {κ : Type} (cbs : Nat → Option κ)
    (data : List Nat) : (Nat → Option κ) × List (κ × DispenseResult) :=
  if data.length < 4 then (cbs, [])
  else
    let status_code := data.getD 1 0
    let aisle_num := aisle_of data
    let status := DispensingStatus.fromByte status_code
    match cbs aisle_num with
    | none => (cbs, [])
    | some callback =>
      let popped : Nat → Option κ := fun a => if a = aisle_num then none else cbs a
      if status = some .SUCCESS then
        (popped, [(callback,
          ⟨true, aisle_num, status, "Dispense successful"⟩)])
      else if status = some .DISPENSING then
        (fun a => if a = aisle_num then some callback else popped a, [])
      else
        (popped, [(callback,
          ⟨false, aisle_num, status, failure_message status⟩)])

/-- `VendingMachineController.handle_aisle_status_response`, as a pure
function of the `aisle_status_callbacks` table and the frame text.
Returns the new table and the `(callback, aisle, status)` invocations
performed. -/
def handle_aisle_status_response {κ : Type} (cbs : Nat → Option κ)
    (data : List Nat) : (Nat → Option κ) × List (κ × Nat × Option AisleStatus) :=
  if data.length < 4 then (cbs, [])
  else
    let status_code := data.getD 1 0
    let aisle_num := aisle_of data
    let status := AisleStatus.fromByte status_code
    match cbs aisle_num with
    | none => (cbs, [])
    | some callback =>
      (fun a => if a = aisle_num then none else cbs a,
       [(callback, aisle_num, status)])

/-- One entry of `self.command_queue`: the dict built by
`queue_command`.  The opaque Python callback is modelled by its
presence (`Option Unit`); times are naturals (milliseconds). -/
structure CmdEntry where
  packet : List Nat
  command : Command
  text : List Nat
  retries : Nat
  max_retries : Nat
  waiting_ack : Bool
  sent_time : Option Nat
  callback : Option Unit
  callback_key : Option Nat

/-- `VendingMachineController.COMMAND_TIMEOUT` (1 second), in the
millisecond time scale used by the model. -/
def COMMAND_TIMEOUT : Nat := 1000

/-- `VendingMachineController.MAX_RETRIES` / the default `max_retries`. -/
def MAX_RETRIES : Nat := 5

/-- The mutable state of a `VendingMachineController` relevant to the
protocol engine: the communication-number counter, the outbound queue
and the two callback tables. -/
structure CtrlState where
  comm_number : Nat
  command_queue : List CmdEntry
  dispense_callbacks : Nat → Option Unit
  aisle_status_callbacks : Nat → Option Unit

/-- The controller state right after `__init__`. -/
def CtrlState.init : CtrlState :=
  ⟨1, [], fun _ => none, fun _ => none⟩

/-- `VendingMachineController.queue_command`: append a fresh entry
(`retries = 0`, `waiting_ack = False`, `sent_time = None`). -/
def CtrlState.queue_command (s : CtrlState) (command : Command)
    (text : List Nat) (callback : Option Unit) (callback_key : Option Nat) :
    CtrlState :=
  { s with command_queue := s.command_queue ++
      [⟨create_packet command text, command, text, 0, MAX_RETRIES,
        false, none, callback, callback_key⟩] }

/-- The first block of `VendingMachineController.handle_poll` (lines
204-216), as a transform of the queue at wall-clock `now`: if the
head is in-flight past `COMMAND_TIMEOUT`, bump `retries` and either
drop the command (retries exhausted) or clear `waiting_ack` for a
re-send. -/
def poll_retry_block (now : Nat) : List CmdEntry → List CmdEntry
  | [] => []
  | e :: rest =>
    if e.waiting_ack then
      if COMMAND_TIMEOUT < now - e.sent_time.getD 0 then
        if e.retries + 1 ≥ e.max_retries then rest
        else { e with retries := e.retries + 1, waiting_ack := false } :: rest
      else e :: rest
    else e :: rest

/-- The second block of `VendingMachineController.handle_poll` (lines
218-231): if the head is not in-flight, write it to the serial port
and mark it in-flight; `writeOk` tells whether `self.serial.write`
succeeds (the `except` branch leaves the entry unsent, and the `else`
branch only sends an ACK). -/
def poll_send_block (now : Nat) (writeOk : Bool) :
    List CmdEntry → List CmdEntry
  | [] => []
  | e :: rest =>
    if e.waiting_ack then e :: rest
    else if writeOk then
      { e with waiting_ack := true, sent_time := some now } :: rest
    else e :: rest

/-- `VendingMachineController.handle_poll`: the retry block followed
by the send block. -/
def CtrlState.handle_poll (s : CtrlState) (now : Nat) (writeOk : Bool) :
    CtrlState :=
  { s with command_queue :=
      poll_send_block now writeOk (poll_retry_block now s.command_queue) }

/-- The `ACK` branch of `handle_received_packet` (lines 278-282), as a
queue transform: pop the head iff it is in-flight. -/
def ack_block : List CmdEntry → List CmdEntry
  | [] => []
  | e :: rest => if e.waiting_ack then rest else e :: rest

/-- The `ACK` branch of `handle_received_packet`. -/
def CtrlState.handle_ack (s : CtrlState) : CtrlState :=
  { s with command_queue := ack_block s.command_queue }

/-- Events that touch the outbound command queue: a command submission
(`queue_command`, also reached through `dispense`, `check_aisle`,
`request_info_sync`, ...), a POLL handling, and an ACK handling. -/
inductive Step where
  | submit (command : Command) (text : List Nat)
      (callback : Option Unit) (callback_key : Option Nat)
  | poll (now : Nat) (writeOk : Bool)
  | ack

/-- Apply one event to the controller state. -/
def stepCtrl (s : CtrlState) : Step → CtrlState
  | .submit c t cb k => s.queue_command c t cb k
  | .poll now ok => s.handle_poll now ok
  | .ack => s.handle_ack

/-- Run a sequence of events from a state. -/
def runCtrl (s : CtrlState) (steps : List Step) : CtrlState :=
  steps.foldl stepCtrl s

/-- `struct.pack(">H", n)`: big-endian 16-bit encoding. -/
def u16be (n : Nat) : List Nat := [n / 256 % 256, n % 256]

/-- `VendingMachineController.dispense`: draw a comm number, register
the callback (when given) under the aisle number, and queue a
`SELECT_BUY` command with payload `comm_num || aisle(u16 BE)`. -/
def CtrlState.dispense (s : CtrlState) (aisle_number : Nat)
    (callback : Option Unit) : CtrlState :=
  let comm := (get_next_comm_number s.comm_number).1
  let s1 := { s with comm_number := (get_next_comm_number s.comm_number).2 }
  let text := [comm] ++ u16be aisle_number
  let s2 :=
    match callback with
    | some _ => { s1 with dispense_callbacks :=
        fun a => if a = aisle_number then some () else s1.dispense_callbacks a }
    | none => s1
  s2.queue_command .SELECT_BUY text none none

/-- `VendingMachineController.drive_aisle_direct`: like `dispense` but
queues `DRIVE_AISLE_DIRECT` with payload
`comm_num || sensor(1) || elevator(1) || aisle(u16 BE)`. -/
def CtrlState.drive_aisle_direct (s : CtrlState) (aisle_number : Nat)
    (use_drop_sensor use_elevator : Bool) (callback : Option Unit) :
    CtrlState :=
  let comm := (get_next_comm_number s.comm_number).1
  let s1 := { s with comm_number := (get_next_comm_number s.comm_number).2 }
  let sensor := if use_drop_sensor then 1 else 0
  let elevator := if use_elevator then 1 else 0
  let text := [comm, sensor, elevator] ++ u16be aisle_number
  let s2 :=
    match callback with
    | some _ => { s1 with dispense_callbacks :=
        fun a => if a = aisle_number then some () else s1.dispense_callbacks a }
    | none => s1
  s2.queue_command .DRIVE_AISLE_DIRECT text none none

/-- `VendingMachineController.check_aisle`: register the callback in
`aisle_status_callbacks` and queue `CHECK_AISLE` with payload
`comm_num || aisle(u16 BE)`. -/
def CtrlState.check_aisle (s : CtrlState) (aisle_number : Nat)
    (callback : Option Unit) : CtrlState :=
  let comm := (get_next_comm_number s.comm_number).1
  let s1 := { s with comm_number := (get_next_comm_number s.comm_number).2 }
  let text := [comm] ++ u16be aisle_number
  let s2 :=
    match callback with
    | some _ => { s1 with aisle_status_callbacks :=
        fun a => if a = aisle_number then some () else s1.aisle_status_callbacks a }
    | none => s1
  s2.queue_command .CHECK_AISLE text none none

/-- `DispenseStatusEnum` of `app/schemas/dispense.py`. -/
inductive DispenseStatusEnum where
  | PENDING
  | DISPENSING
  | SUCCESS
  | FAILED
  | JAMMED
  | MOTOR_ERROR
  | NOT_FOUND
deriving DecidableEq, Repr

/-- `AisleStatusEnum` of `app/schemas/dispense.py`. -/
inductive AisleStatusEnum where
  | NORMAL
  | OUT_OF_STOCK
  | NOT_EXIST
  | PAUSED
deriving DecidableEq, Repr

/-- `DispenseRequest` schema. -/
structure DispenseRequest where
  aisle_number : Nat
  use_drop_sensor : Bool
  use_elevator : Bool
  force : Bool
deriving DecidableEq, Repr

/-- `DispenseResponse` schema. -/
structure DispenseResponse where
  success : Bool
  aisle_number : Nat
  status : DispenseStatusEnum
  message : String
  transaction_id : Option String
deriving DecidableEq, Repr

/-- `AisleStatusResponse` schema. -/
structure AisleStatusResponse where
  aisle_number : Nat
  status : AisleStatusEnum
  message : String
deriving DecidableEq, Repr

/-- `DispenseService._map_dispense_status`: `mapping.get(status,
FAILED)`; the argument is `Option` because `DispenseResult.status` may
be `None`. -/
def map_dispense_status : Option DispensingStatus → DispenseStatusEnum
  | some .DISPENSING => .DISPENSING
  | some .SUCCESS => .SUCCESS
  | some .JAMMED => .JAMMED
  | some .MOTOR_DOESNT_STOP => .MOTOR_ERROR
  | some .MOTOR_DOESNT_EXIST => .NOT_FOUND
  | none => .FAILED

/-- `DispenseService._map_aisle_status`: `mapping.get(status,
NOT_EXIST)`. -/
def map_aisle_status : Option AisleStatus → AisleStatusEnum
  | some .NORMAL => .NORMAL
  | some .OUT_OF_STOCK => .OUT_OF_STOCK
  | some .DOESNT_EXIST => .NOT_EXIST
  | some .PAUSED => .PAUSED
  | none => .NOT_EXIST

/-- The `status_messages.get(status, "Unknown status")` lookup in
`DispenseService.check_aisle_status`. -/
def aisle_status_message : Option AisleStatus → String
  | some .NORMAL => "Aisle is ready"
  | some .OUT_OF_STOCK => "Aisle is out of stock"
  | some .DOESNT_EXIST => "Aisle does not exist"
  | some .PAUSED => "Aisle is paused"
  | none => "Unknown status"

/-- How `await asyncio.wait_for(future, timeout)` ends: a result
arrives, the timeout fires (`asyncio.TimeoutError`), or some other
exception is raised. -/
inductive AwaitOutcome (R : Type) where
  | result (r : R)
  | timeout
  | error (msg : String)

namespace DispenseService

/-- `DispenseService.dispense`, as a pure function of the connection
flag, the request, the pending-future table (futures modelled by their
presence), the controller state, the generated transaction id, and
how the await ends.  Returns the response, the final pending table and
the final controller state. -/
def dispense (connected : Bool) (req : DispenseRequest)
    (pending : Nat → Option Unit) (ctrl : CtrlState) (txn : String)
    (outcome : AwaitOutcome DispenseResult) :
    DispenseResponse × (Nat → Option Unit) × CtrlState :=
  if connected = false then
    (⟨false, req.aisle_number, .FAILED, "VMC not connected", none⟩,
     pending, ctrl)
  else
    let pending1 : Nat → Option Unit :=
      fun a => if a = req.aisle_number then some () else pending a
    let ctrl1 :=
      if req.force then
        ctrl.drive_aisle_direct req.aisle_number req.use_drop_sensor
          req.use_elevator (some ())
      else ctrl.dispense req.aisle_number (some ())
    let response : DispenseResponse :=
      match outcome with
      | .result r =>
        ⟨r.success, r.aisle_number, map_dispense_status r.status,
         r.message, some txn⟩
      | .timeout =>
        ⟨false, req.aisle_number, .FAILED, "Operation timed out", some txn⟩
      | .error e =>
        ⟨false, req.aisle_number, .FAILED, e, some txn⟩
    (response,
     fun a => if a = req.aisle_number then none else pending1 a,
     ctrl1)

/-- `DispenseService.check_aisle_status`, in the same style. -/
def check_aisle_status (connected : Bool) (aisle_number : Nat)
    (pending : Nat → Option Unit) (ctrl : CtrlState)
    (outcome : AwaitOutcome (Nat × Option AisleStatus)) :
    AisleStatusResponse × (Nat → Option Unit) × CtrlState :=
  if connected = false then
    (⟨aisle_number, .NOT_EXIST, "VMC not connected"⟩, pending, ctrl)
  else
    let pending1 : Nat → Option Unit :=
      fun a => if a = aisle_number then some () else pending a
    let ctrl1 := ctrl.check_aisle aisle_number (some ())
    let response : AisleStatusResponse :=
      match outcome with
      | .result (a, st) => ⟨a, map_aisle_status st, aisle_status_message st⟩
      | .timeout => ⟨aisle_number, .NOT_EXIST, "Status check timed out"⟩
      | .error e => ⟨aisle_number, .NOT_EXIST, e⟩
    (response,
     fun a => if a = aisle_number then none else pending1 a,
     ctrl1)

end DispenseService

end VMC

namespace VMC

/-! ## Helper lemmas -/

theorem commAfter_eq (k : Nat) : commAfter k = k % 255 + 1 := by
  induction k with
  | zero => rfl
  | succ n ih =>
    simp only [commAfter, get_next_comm_number, ih]
    omega

theorem commCall_eq (k : Nat) : commCall k = k % 255 + 1 := by
  simp only [commCall, get_next_comm_number, commAfter_eq]

theorem fromByte_value (c : Command) : Command.fromByte c.value = some c := by
  cases c <;> rfl

theorem create_packet_cons (c : Command) (text : List Nat) :
    create_packet c text =
      0xFA :: 0xFB :: c.value :: text.length ::
        (text ++ [calculate_xor
          (0xFA :: 0xFB :: c.value :: text.length :: text)]) := rfl

theorem create_packet_length (c : Command) (text : List Nat) :
    (create_packet c text).length = 5 + text.length := by
  rw [create_packet_cons]
  simp only [List.length_cons, List.length_append, List.length_nil]
  omega

theorem calculate_xor_nil : calculate_xor [] = 0 := rfl

theorem xor_foldl_acc (l : List Nat) : ∀ a : Nat,
    l.foldl (fun acc b => acc ^^^ b) a =
      a ^^^ l.foldl (fun acc b => acc ^^^ b) 0 := by
  induction l with
  | nil => intro a; simp
  | cons b t ih =>
    intro a
    simp only [List.foldl_cons]
    rw [ih (a ^^^ b), ih (0 ^^^ b)]
    simp [Nat.xor_assoc]

theorem calculate_xor_cons (a : Nat) (l : List Nat) :
    calculate_xor (a :: l) = a ^^^ calculate_xor l := by
  simp only [calculate_xor, List.foldl_cons]
  rw [xor_foldl_acc]
  simp

theorem calculate_xor_append (l₁ l₂ : List Nat) :
    calculate_xor (l₁ ++ l₂) = calculate_xor l₁ ^^^ calculate_xor l₂ := by
  induction l₁ with
  | nil => simp [calculate_xor]
  | cons a t ih =>
    simp only [List.cons_append, calculate_xor_cons, ih, Nat.xor_assoc]

theorem calculate_xor_set (t : List Nat) (j v : Nat) (hj : j < t.length) :
    calculate_xor (t.set j v) = calculate_xor t ^^^ t.getD j 0 ^^^ v := by
  induction t generalizing j with
  | nil => simp at hj
  | cons a t ih =>
    cases j with
    | zero =>
      simp only [List.set_cons_zero, calculate_xor_cons, List.getD_cons_zero]
      rw [Nat.xor_assoc, Nat.xor_comm a (calculate_xor t), Nat.xor_assoc,
        ← Nat.xor_assoc a a v, Nat.xor_self, Nat.zero_xor, Nat.xor_comm v _]
    | succ j =>
      simp only [List.set_cons_succ, calculate_xor_cons, List.getD_cons_succ]
      rw [ih j (by simpa using hj)]
      simp [Nat.xor_assoc]

theorem xor_cancel_ne_left (a x y : Nat) (h : x ≠ y) : a ^^^ x ≠ a ^^^ y := by
  intro hc
  apply h
  have h2 := congrArg (fun z => a ^^^ z) hc
  simpa [Nat.xor_cancel_left] using h2

theorem xor_cancel_ne_right (x y b : Nat) (h : x ≠ y) : x ^^^ b ≠ y ^^^ b := by
  intro hc
  apply h
  have h2 := congrArg (fun z => z ^^^ b) hc
  simpa [Nat.xor_cancel_right] using h2

theorem xor_set_ne (T a b : Nat) (h : a ≠ b) : T ≠ T ^^^ a ^^^ b := by
  intro hc
  apply h
  have h0 : (0 : Nat) = a ^^^ b := by
    calc (0 : Nat) = T ^^^ T := (Nat.xor_self T).symm
    _ = T ^^^ (T ^^^ a ^^^ b) := by rw [← hc]
    _ = a ^^^ b := by
        rw [← Nat.xor_assoc, ← Nat.xor_assoc, Nat.xor_self, Nat.zero_xor]
  exact Nat.xor_eq_zero.mp h0.symm

/-! ## C2: encode/decode round trip -/

theorem parse_create_packet_aux (c : Command) (text : List Nat)
    (hlen : text.length ≤ 255) (hbytes : ∀ b ∈ text, b < 256) :
    parse_packet (create_packet c text) = some (c, text) := by
  have hX : create_packet c text =
      ([0xFA, 0xFB, c.value, text.length] ++ text) ++
        [calculate_xor ([0xFA, 0xFB, c.value, text.length] ++ text)] := rfl
  have hlen5 : (create_packet c text).length = 5 + text.length :=
    create_packet_length c text
  have hpre : ([0xFA, 0xFB, c.value, text.length] ++ text).length =
      4 + text.length := by
    simp only [List.length_append, List.length_cons, List.length_nil]
  rw [parse_packet]
  rw [if_neg (by omega : ¬ (create_packet c text).length < 5)]
  have htake2 : (create_packet c text).take 2 = STX := rfl
  rw [if_neg (by rw [htake2]; exact fun h => h rfl)]
  have hget2 : (create_packet c text).getD 2 0 = c.value := rfl
  have hget3 : (create_packet c text).getD 3 0 = text.length := rfl
  rw [hget2, hget3]
  rw [if_neg (by omega : ¬ (create_packet c text).length < 5 + text.length)]
  have htext : ((create_packet c text).drop 4).take text.length = text := by
    have hdrop : (create_packet c text).drop 4 =
        text ++ [calculate_xor ([0xFA, 0xFB, c.value, text.length] ++ text)] := rfl
    rw [hdrop, List.take_left]
  have hxr : (create_packet c text).getD (4 + text.length) 0 =
      calculate_xor ([0xFA, 0xFB, c.value, text.length] ++ text) := by
    rw [hX]
    rw [List.getD_append_right _ _ _ _ (by rw [hpre])]
    rw [hpre]
    have h0 : 4 + text.length - (4 + text.length) = 0 := by omega
    rw [h0]
    rfl
  have hxc : (create_packet c text).take (4 + text.length) =
      [0xFA, 0xFB, c.value, text.length] ++ text := by
    rw [hX]
    rw [show (4 + text.length) =
      ([0xFA, 0xFB, c.value, text.length] ++ text).length by rw [hpre]]
    exact List.take_left _ _
  rw [htext, hxr, hxc]
  rw [if_neg (by exact fun h => h rfl)]
  rw [fromByte_value]

/-- **C2.** For every command in the fixed command set and every byte
string `text` of length at most 255, decoding the encoded frame
returns exactly that command and that text:
`parse_packet (create_packet cmd text) = some (cmd, text)`. -/
theorem parse_create_packet_roundtrip (c : Command) (text : List Nat)
    (hlen : text.length ≤ 255) (hbytes : ∀ b ∈ text, b < 256) :
    parse_packet (create_packet c text) = some (c, text) :=
  parse_create_packet_aux c text hlen hbytes

/-- Witness for C2: the round trip evaluated at `SELECT_BUY` with the
payload `comm_num=1, aisle=5`. -/
theorem parse_create_packet_roundtrip_witness :
    ([0x01, 0x00, 0x05] : List Nat).length ≤ 255 ∧
    (∀ b ∈ ([0x01, 0x00, 0x05] : List Nat), b < 256) ∧
    parse_packet (create_packet .SELECT_BUY [0x01, 0x00, 0x05]) =
      some (.SELECT_BUY, [0x01, 0x00, 0x05]) :=
  ⟨by decide, by decide,
   parse_create_packet_roundtrip .SELECT_BUY [0x01, 0x00, 0x05]
     (by decide) (by decide)⟩

/-! ## C8: communication numbers -/

/-- **C8.** The communication-number generator starts at 1 and, on each
call, returns the current value then advances it by
`n ← (n mod 255) + 1`; for every `k ≥ 1` the `k`-th call returns
`((k-1) mod 255) + 1`, the value 0 is never returned, every returned
value lies in `1..=255`, and the sequence is periodic with period
255. -/
theorem get_next_comm_number_spec (k : Nat) (hk : 1 ≤ k) :
    commAfter 0 = 1 ∧
    (∀ n, get_next_comm_number n = (n, n % 255 + 1)) ∧
    commCall (k - 1) = (k - 1) % 255 + 1 ∧
    commCall (k - 1) ≠ 0 ∧
    1 ≤ commCall (k - 1) ∧ commCall (k - 1) ≤ 255 ∧
    commCall (k - 1 + 255) = commCall (k - 1) := by
  refine ⟨rfl, fun n => rfl, commCall_eq _, ?_, ?_, ?_, ?_⟩ <;>
    simp only [commCall_eq] <;> omega

/-- Witness for C8 at `k = 256`: the 256-th call returns 1 again. -/
theorem get_next_comm_number_spec_witness :
    1 ≤ 256 ∧ commCall (256 - 1) = (256 - 1) % 255 + 1 ∧
      commCall (256 - 1) = 1 :=
  ⟨by decide, (get_next_comm_number_spec 256 (by decide)).2.2.1,
   by simp [commCall_eq]⟩

/-! ## C9: short payloads leave the handlers inert -/

/-- **C9.** For every inbound `DISPENSING_STATUS` or
`AISLE_STATUS_RESPONSE` frame whose text payload is shorter than 4
bytes, the handler returns (totally, with no out-of-bounds access),
invokes no callback, and leaves the dispense and aisle-status callback
tables unchanged. -/
theorem handlers_short_payload {κ₁ κ₂ : Type}
    (cbs₁ : Nat → Option κ₁) (cbs₂ : Nat → Option κ₂)
    (data : List Nat) (h : data.length < 4) :
    handle_dispensing_status cbs₁ data = (cbs₁, []) ∧
    handle_aisle_status_response cbs₂ data = (cbs₂, []) := by
  constructor <;>
    simp only [handle_dispensing_status, handle_aisle_status_response,
      if_pos h]

/-- Witness for C9 on the 3-byte payload `[1, 2, 0]`. -/
theorem handlers_short_payload_witness :
    ([1, 2, 0] : List Nat).length < 4 ∧
    handle_dispensing_status (fun _ => some 7) [1, 2, 0] =
      ((fun _ => some 7 : Nat → Option Nat), []) ∧
    handle_aisle_status_response (fun _ => some 9) [1, 2, 0] =
      ((fun _ => some 9 : Nat → Option Nat), []) :=
  ⟨by decide,
   (handlers_short_payload (fun _ => some 7) (fun _ => some 9) [1, 2, 0]
     (by decide)).1,
   (handlers_short_payload (fun _ => some 7) (fun _ => some 9) [1, 2, 0]
     (by decide)).2⟩

/-! ## C5: the intermediate DISPENSING status re-arms the entry -/

/-- **C5.** When a `DISPENSING_STATUS` frame with status DISPENSING
(0x01) arrives for an aisle that has a pending dispense, the
pending-dispense table is unchanged afterwards (the same callback
remains registered under that aisle) and no callback is invoked. -/
theorem handle_dispensing_status_dispensing {κ : Type}
    (cbs : Nat → Option κ) (data : List Nat) (cb : κ)
    (h4 : 4 ≤ data.length)
    (hst : data.getD 1 0 = 0x01)
    (hcb : cbs (aisle_of data) = some cb) :
    (handle_dispensing_status cbs data).1 = cbs ∧
    (handle_dispensing_status cbs data).2 = [] := by
  have hnot : ¬ data.length < 4 := by omega
  simp only [handle_dispensing_status, if_neg hnot, hst, hcb]
  simp only [DispensingStatus.fromByte]
  constructor
  · funext a
    by_cases ha : a = aisle_of data
    · simp [ha, hcb]
    · simp [ha]
  · rfl

/-- Witness for C5: DISPENSING frame for aisle 5 with a pending
callback. -/
theorem handle_dispensing_status_dispensing_witness :
    (4 ≤ ([1, 1, 0, 5] : List Nat).length) ∧
    (handle_dispensing_status
        (fun a => if a = 5 then some 3 else none) [1, 1, 0, 5]).1 =
      (fun a => if a = 5 then some 3 else none : Nat → Option Nat) ∧
    (handle_dispensing_status
        (fun a => if a = 5 then some 3 else none) [1, 1, 0, 5]).2 = [] :=
  ⟨by decide,
   (handle_dispensing_status_dispensing _ [1, 1, 0, 5] 3
      (by decide) (by decide) (by decide)).1,
   (handle_dispensing_status_dispensing _ [1, 1, 0, 5] 3
      (by decide) (by decide) (by decide)).2⟩

/-! ## C4: terminal dispensing statuses resolve the pending entry -/

/-- **C4 (counterexample).** The claim quotes the MOTOR_DOESNT_STOP
message with an en dash, `"Motor error – doesn't stop"`; the code uses
an ASCII hyphen.  On a MOTOR_DOESNT_STOP frame for aisle 5 with a
pending callback, the emitted message is
`"Motor error - doesn't stop"`, which differs from the claimed
string. -/
theorem dispensing_status_motor_message_counterexample :
    (handle_dispensing_status
        (fun a => if a = 5 then some 0 else none) [1, 4, 0, 5]).2 =
      [(0, ⟨false, 5, some .MOTOR_DOESNT_STOP, "Motor error - doesn't stop"⟩)] ∧
    "Motor error - doesn't stop" ≠ "Motor error – doesn't stop" := by
  constructor
  · rfl
  · decide

/-- **C4 (amended).** When a `DISPENSING_STATUS` frame arrives for an
aisle with a pending dispense and its status code is terminal (not
DISPENSING 0x01), the engine removes the pending entry and invokes its
callback once with a `DispenseResult` whose aisle is the frame's
aisle, whose stored status is the parsed status, whose `success`
equals `status = SUCCESS`, and whose message is: SUCCESS →
"Dispense successful", JAMMED → "Product jammed", MOTOR_DOESNT_STOP →
"Motor error - doesn't stop" (ASCII hyphen), MOTOR_DOESNT_EXIST →
"Motor not found", any other code → "Unknown error". -/
theorem handle_dispensing_status_terminal {κ : Type}
    (cbs : Nat → Option κ) (data : List Nat) (cb : κ)
    (h4 : 4 ≤ data.length)
    (hcb : cbs (aisle_of data) = some cb)
    (hnd : DispensingStatus.fromByte (data.getD 1 0) ≠ some .DISPENSING) :
    (handle_dispensing_status cbs data).1 (aisle_of data) = none ∧
    (∀ a, a ≠ aisle_of data →
      (handle_dispensing_status cbs data).1 a = cbs a) ∧
    ∃ r : DispenseResult,
      (handle_dispensing_status cbs data).2 = [(cb, r)] ∧
      r.aisle_number = aisle_of data ∧
      r.status = DispensingStatus.fromByte (data.getD 1 0) ∧
      (r.success = true ↔
        DispensingStatus.fromByte (data.getD 1 0) = some .SUCCESS) ∧
      r.message =
        (match DispensingStatus.fromByte (data.getD 1 0) with
         | some .SUCCESS => "Dispense successful"
         | some .JAMMED => "Product jammed"
         | some .MOTOR_DOESNT_STOP => "Motor error - doesn't stop"
         | some .MOTOR_DOESNT_EXIST => "Motor not found"
         | _ => "Unknown error") := by
  have hnot : ¬ data.length < 4 := by omega
  rcases hs : DispensingStatus.fromByte (data.getD 1 0) with _ | s
  · simp only [handle_dispensing_status, if_neg hnot, hcb, hs]
    refine ⟨by simp, fun a ha => by simp [ha], _, rfl, rfl, rfl, ?_, rfl⟩
    simp
  · cases s
    · exact absurd hs hnd
    · simp only [handle_dispensing_status, if_neg hnot, hcb, hs]
      refine ⟨by simp, fun a ha => by simp [ha], _, rfl, rfl, rfl, ?_, rfl⟩
      simp
    · simp only [handle_dispensing_status, if_neg hnot, hcb, hs]
      refine ⟨by simp, fun a ha => by simp [ha], _, rfl, rfl, rfl, ?_, rfl⟩
      simp
    · simp only [handle_dispensing_status, if_neg hnot, hcb, hs]
      refine ⟨by simp, fun a ha => by simp [ha], _, rfl, rfl, rfl, ?_, rfl⟩
      simp
    · simp only [handle_dispensing_status, if_neg hnot, hcb, hs]
      refine ⟨by simp, fun a ha => by simp [ha], _, rfl, rfl, rfl, ?_, rfl⟩
      simp

/-- Witness for C4 (amended): a SUCCESS frame for aisle 5 with a
pending callback resolves it with "Dispense successful". -/
theorem handle_dispensing_status_terminal_witness :
    (handle_dispensing_status
        (fun a => if a = 5 then some 0 else none) [1, 2, 0, 5]).1 5 = none ∧
    (handle_dispensing_status
        (fun a => if a = 5 then some 0 else none) [1, 2, 0, 5]).2 =
      [(0, ⟨true, 5, some .SUCCESS, "Dispense successful"⟩)] := by
  have h := handle_dispensing_status_terminal
    (fun a => if a = 5 then some 0 else none) [1, 2, 0, 5] 0
    (by decide) (by decide) (by decide)
  refine ⟨h.1, ?_⟩
  rcases h.2.2 with ⟨r, hr, h1, h2, h3, h4⟩
  rw [hr]
  have hre : r = ⟨true, 5, some .SUCCESS, "Dispense successful"⟩ := by
    rcases r with ⟨s, a, st, m⟩
    obtain rfl : a = 5 := h1
    obtain rfl : st = some .SUCCESS := h2
    obtain rfl : m = "Dispense successful" := h4
    obtain rfl : s = true := h3.mpr rfl
    rfl
  rw [hre]

/-! ## C7: facade timeouts -/

/-- **C7 (counterexample).** The claim says both facade operations
time out with a FAILED response carrying the message
"Operation timed out".  `check_aisle_status` instead returns status
NOT_EXIST with the message "Status check timed out" (its enum has no
FAILED member at all): at aisle 5, connected, with a timeout, the
response differs from the claimed one. -/
theorem check_aisle_status_timeout_counterexample :
    (DispenseService.check_aisle_status true 5 (fun _ => none)
        CtrlState.init .timeout).1 =
      ⟨5, .NOT_EXIST, "Status check timed out"⟩ ∧
    "Status check timed out" ≠ "Operation timed out" := by
  exact ⟨rfl, by decide⟩

/-- **C7 (amended).** When a facade operation's timeout elapses before
a terminal response arrives, `dispense` returns a FAILED response with
message "Operation timed out", while `check_aisle_status` returns a
NOT_EXIST response with message "Status check timed out". -/
theorem facade_timeout_responses (req : DispenseRequest)
    (pending pending' : Nat → Option Unit) (ctrl ctrl' : CtrlState)
    (txn : String) (aisle : Nat) :
    (DispenseService.dispense true req pending ctrl txn .timeout).1 =
      ⟨false, req.aisle_number, .FAILED, "Operation timed out", some txn⟩ ∧
    (DispenseService.check_aisle_status true aisle pending' ctrl'
        .timeout).1 =
      ⟨aisle, .NOT_EXIST, "Status check timed out"⟩ := by
  constructor
  · simp only [DispenseService.dispense]
    split
    · simp_all
    · rfl
  · rfl

/-! ## C10: not-connected short circuit -/

/-- **C10.** When the controller is not connected, `dispense` and
`check_aisle_status` return their failure response immediately: the
outbound queue, the comm-number counter, both controller callback
tables (the whole controller state) and the service's pending-future
tables are returned unchanged. -/
theorem not_connected_short_circuit (req : DispenseRequest) (aisle : Nat)
    (pending pending' : Nat → Option Unit) (ctrl ctrl' : CtrlState)
    (txn : String) (outcome : AwaitOutcome DispenseResult)
    (outcome' : AwaitOutcome (Nat × Option AisleStatus)) :
    DispenseService.dispense false req pending ctrl txn outcome =
      (⟨false, req.aisle_number, .FAILED, "VMC not connected", none⟩,
       pending, ctrl) ∧
    DispenseService.check_aisle_status false aisle pending' ctrl' outcome' =
      (⟨aisle, .NOT_EXIST, "VMC not connected"⟩, pending', ctrl') :=
  ⟨rfl, rfl⟩

/-! ## C6: at most one in-flight command, always at the head -/

/-- Every entry of the queue behind the head has `waiting_ack = False`.
This is the inductive invariant behind the "at most one in-flight
command" property. -/
def tailNotWaiting : List CmdEntry → Prop
  | [] => True
  | _ :: t => ∀ e ∈ t, e.waiting_ack = false

theorem tailNotWaiting_of_all (q : List CmdEntry)
    (h : ∀ e ∈ q, e.waiting_ack = false) : tailNotWaiting q := by
  cases q with
  | nil => trivial
  | cons e t => exact fun x hx => h x (List.mem_cons_of_mem _ hx)

theorem tailNotWaiting_replace_head (e e' : CmdEntry) (t : List CmdEntry)
    (h : tailNotWaiting (e :: t)) : tailNotWaiting (e' :: t) := h

theorem queue_command_tailNotWaiting (s : CtrlState) (c : Command)
    (text : List Nat) (cb : Option Unit) (k : Option Nat)
    (h : tailNotWaiting s.command_queue) :
    tailNotWaiting (s.queue_command c text cb k).command_queue := by
  show tailNotWaiting (s.command_queue ++ [_])
  cases hq : s.command_queue with
  | nil => simp [tailNotWaiting]
  | cons e t =>
    rw [hq] at h
    intro x hx
    rcases List.mem_append.mp hx with hx | hx
    · exact h x hx
    · rcases List.mem_singleton.mp hx with rfl
      rfl

theorem poll_retry_block_tailNotWaiting (now : Nat) (q : List CmdEntry)
    (h : tailNotWaiting q) : tailNotWaiting (poll_retry_block now q) := by
  cases q with
  | nil => trivial
  | cons e t =>
    have ht : ∀ x ∈ t, x.waiting_ack = false := h
    simp only [poll_retry_block]
    split
    · split
      · split
        · exact tailNotWaiting_of_all t ht
        · exact ht
      · exact ht
    · exact ht

theorem poll_send_block_tailNotWaiting (now : Nat) (writeOk : Bool)
    (q : List CmdEntry) (h : tailNotWaiting q) :
    tailNotWaiting (poll_send_block now writeOk q) := by
  cases q with
  | nil => trivial
  | cons e t =>
    have ht : ∀ x ∈ t, x.waiting_ack = false := h
    simp only [poll_send_block]
    split
    · exact ht
    · split
      · exact ht
      · exact ht

theorem handle_poll_tailNotWaiting (s : CtrlState) (now : Nat)
    (writeOk : Bool) (h : tailNotWaiting s.command_queue) :
    tailNotWaiting (s.handle_poll now writeOk).command_queue :=
  poll_send_block_tailNotWaiting now writeOk _
    (poll_retry_block_tailNotWaiting now _ h)

theorem handle_ack_tailNotWaiting (s : CtrlState)
    (h : tailNotWaiting s.command_queue) :
    tailNotWaiting (s.handle_ack).command_queue := by
  show tailNotWaiting (ack_block s.command_queue)
  cases hq : s.command_queue with
  | nil => trivial
  | cons e t =>
    rw [hq] at h
    simp only [ack_block]
    split
    · exact tailNotWaiting_of_all t h
    · exact h

theorem stepCtrl_tailNotWaiting (s : CtrlState) (st : Step)
    (h : tailNotWaiting s.command_queue) :
    tailNotWaiting (stepCtrl s st).command_queue := by
  cases st with
  | submit c text cb k => exact queue_command_tailNotWaiting s c text cb k h
  | poll now ok => exact handle_poll_tailNotWaiting s now ok h
  | ack => exact handle_ack_tailNotWaiting s h

theorem runCtrl_tailNotWaiting (steps : List Step) (s : CtrlState)
    (h : tailNotWaiting s.command_queue) :
    tailNotWaiting (runCtrl s steps).command_queue := by
  induction steps generalizing s with
  | nil => exact h
  | cons st rest ih =>
    exact ih (stepCtrl s st) (stepCtrl_tailNotWaiting s st h)

/-- **C6.** In every state reachable from the initial controller state
by any sequence of command submissions, POLL handlings and ACK
handlings, at most one entry of the outbound command queue has its
`waiting_ack` (in-flight) flag set, and if one does it is the head of
the queue. -/
theorem at_most_one_in_flight (steps : List Step) :
    (runCtrl CtrlState.init steps).command_queue.countP
        (fun e => e.waiting_ack) ≤ 1 ∧
    ∀ i (h : i < (runCtrl CtrlState.init steps).command_queue.length),
      ((runCtrl CtrlState.init steps).command_queue.get ⟨i, h⟩).waiting_ack =
        true → i = 0 := by
  have hinv : tailNotWaiting (runCtrl CtrlState.init steps).command_queue :=
    runCtrl_tailNotWaiting steps CtrlState.init trivial
  cases hq : (runCtrl CtrlState.init steps).command_queue with
  | nil =>
    constructor
    · simp
    · intro i h
      simp at h
  | cons e t =>
    rw [hq] at hinv
    constructor
    · rw [List.countP_cons]
      have h0 : t.countP (fun e => e.waiting_ack) = 0 := by
        rw [List.countP_eq_zero]
        intro x hx
        simp [hinv x hx]
      rw [h0]
      split <;> omega
    · intro i h hw
      cases i with
      | zero => rfl
      | succ j =>
        exfalso
        have hj : j < t.length := by
          simp only [List.length_cons] at h
          omega
        have hfalse : (t.get ⟨j, hj⟩).waiting_ack = false :=
          hinv _ (t.get_mem j hj)
        rw [List.get_cons_succ] at hw
        rw [hw] at hfalse
        exact Bool.true_eq_false ▸ hfalse

/-- Witness for C6: after a submission and one successful POLL send,
the invariant holds on the resulting one-element queue (whose head is
in-flight at position 0). -/
theorem at_most_one_in_flight_witness :
    (runCtrl CtrlState.init [Step.submit .POLL [] none none,
        Step.poll 0 true]).command_queue.countP
      (fun e => e.waiting_ack) ≤ 1 ∧
    (0 : Nat) = 0 :=
  ⟨(at_most_one_in_flight
      [Step.submit .POLL [] none none, Step.poll 0 true]).1,
   (at_most_one_in_flight
      [Step.submit .POLL [] none none, Step.poll 0 true]).2
     0 (by decide) (by decide)⟩

/-- Witness for C7 (amended) at aisle 5. -/
theorem facade_timeout_responses_witness :
    (DispenseService.dispense true ⟨5, true, false, false⟩ (fun _ => none)
        CtrlState.init "txn" .timeout).1 =
      ⟨false, 5, .FAILED, "Operation timed out", some "txn"⟩ ∧
    (DispenseService.check_aisle_status true 5 (fun _ => none)
        CtrlState.init .timeout).1 =
      ⟨5, .NOT_EXIST, "Status check timed out"⟩ :=
  ⟨(facade_timeout_responses ⟨5, true, false, false⟩ (fun _ => none)
      (fun _ => none) CtrlState.init CtrlState.init "txn" 5).1,
   (facade_timeout_responses ⟨5, true, false, false⟩ (fun _ => none)
      (fun _ => none) CtrlState.init CtrlState.init "txn" 5).2⟩

/-- Witness for C10 at aisle 5. -/
theorem not_connected_short_circuit_witness :
    DispenseService.dispense false ⟨5, true, false, false⟩ (fun _ => none)
        CtrlState.init "txn" .timeout =
      (⟨false, 5, .FAILED, "VMC not connected", none⟩,
       (fun _ => none), CtrlState.init) ∧
    DispenseService.check_aisle_status false 5 (fun _ => none)
        CtrlState.init .timeout =
      (⟨5, .NOT_EXIST, "VMC not connected"⟩,
       (fun _ => none), CtrlState.init) :=
  ⟨(not_connected_short_circuit ⟨5, true, false, false⟩ 5 (fun _ => none)
      (fun _ => none) CtrlState.init CtrlState.init "txn" .timeout
      .timeout).1,
   (not_connected_short_circuit ⟨5, true, false, false⟩ 5 (fun _ => none)
      (fun _ => none) CtrlState.init CtrlState.init "txn" .timeout
      .timeout).2⟩

/-! ## C3: single-byte corruption -/

/-- How `parse_packet` behaves on any byte string of the general frame
shape `FA FB u Lb (t ++ [y])` with `t.length = Lb`: it reduces to the
XOR comparison of `y` against the checksum of the first `4 + Lb`
bytes, followed by the command-byte lookup. -/
theorem parse_packet_generic (u Lb : Nat) (t : List Nat) (y : Nat)
    (ht : t.length = Lb) :
    parse_packet (0xFA :: 0xFB :: u :: Lb :: (t ++ [y])) =
      if y ≠ calculate_xor ([0xFA, 0xFB, u, Lb] ++ t) then none
      else
        match Command.fromByte u with
        | some command => some (command, t)
        | none => none := by
  subst ht
  have hDeq : 0xFA :: 0xFB :: u :: t.length :: (t ++ [y]) =
      ([0xFA, 0xFB, u, t.length] ++ t) ++ [y] := rfl
  have hpre : ([0xFA, 0xFB, u, t.length] ++ t).length = 4 + t.length := by
    simp only [List.length_append, List.length_cons, List.length_nil]
  have hlen : (0xFA :: 0xFB :: u :: t.length :: (t ++ [y])).length =
      5 + t.length := by
    simp only [List.length_cons, List.length_append, List.length_nil]
    omega
  rw [parse_packet]
  rw [if_neg (by omega)]
  have htake2 : (0xFA :: 0xFB :: u :: t.length :: (t ++ [y])).take 2 =
      STX := rfl
  rw [if_neg (by rw [htake2]; exact fun h => h rfl)]
  have hget2 : (0xFA :: 0xFB :: u :: t.length :: (t ++ [y])).getD 2 0 = u := rfl
  have hget3 : (0xFA :: 0xFB :: u :: t.length :: (t ++ [y])).getD 3 0 =
      t.length := rfl
  rw [hget2, hget3]
  rw [if_neg (by omega)]
  have htext : ((0xFA :: 0xFB :: u :: t.length :: (t ++ [y])).drop 4).take
      t.length = t := by
    have hdrop : (0xFA :: 0xFB :: u :: t.length :: (t ++ [y])).drop 4 =
        t ++ [y] := rfl
    rw [hdrop, List.take_left]
  have hxr : (0xFA :: 0xFB :: u :: t.length :: (t ++ [y])).getD
      (4 + t.length) 0 = y := by
    rw [hDeq, List.getD_append_right _ _ _ _ (by rw [hpre]), hpre]
    have h0 : 4 + t.length - (4 + t.length) = 0 := by omega
    rw [h0]
    rfl
  have hxc : (0xFA :: 0xFB :: u :: t.length :: (t ++ [y])).take
      (4 + t.length) = [0xFA, 0xFB, u, t.length] ++ t := by
    rw [hDeq, show (4 + t.length) =
      ([0xFA, 0xFB, u, t.length] ++ t).length by rw [hpre]]
    exact List.take_left _ _
  rw [htext, hxr, hxc]

/-- **C3 (counterexample).** `create_packet POLL [0x40]` is the valid
frame `FA FB 41 01 40 01`.  Flipping its length byte (position 3) from
`01` to `00` yields `FA FB 41 00 40 01`, which `parse_packet` still
accepts — as a different frame `(POLL, [])` — instead of rejecting
it. -/
theorem parse_packet_flip_counterexample :
    create_packet .POLL [0x40] = [0xFA, 0xFB, 0x41, 0x01, 0x40, 0x01] ∧
    parse_packet [0xFA, 0xFB, 0x41, 0x01, 0x40, 0x01] =
      some (.POLL, [0x40]) ∧
    [0xFA, 0xFB, 0x41, 0x01, 0x40, 0x01].set 3 0 =
      [0xFA, 0xFB, 0x41, 0x00, 0x40, 0x01] ∧
    (0 : Nat) ≠ [0xFA, 0xFB, 0x41, 0x01, 0x40, 0x01].getD 3 0 ∧
    parse_packet [0xFA, 0xFB, 0x41, 0x00, 0x40, 0x01] =
      some (.POLL, []) :=
  ⟨by decide, by decide, by decide, by decide, by decide⟩

/-- **C3 (amended).** For every valid frame `create_packet cmd text`,
every byte position in it other than the length byte (position 3),
and every replacement byte value different from the original at that
position, decoding the corrupted frame rejects it.  (Flipping the
length byte can produce an accepting parse of a different frame, as
the counterexample shows.) -/
theorem parse_packet_rejects_single_flip (c : Command) (text : List Nat)
    (hlen : text.length ≤ 255) (hbytes : ∀ b ∈ text, b < 256)
    (i v : Nat) (hi : i < (create_packet c text).length) (hi3 : i ≠ 3)
    (hv256 : v < 256) (hv : v ≠ (create_packet c text).getD i 0) :
    parse_packet ((create_packet c text).set i v) = none := by
  have hXeq : calculate_xor
      (0xFA :: 0xFB :: c.value :: text.length :: text) =
      calculate_xor ([0xFA, 0xFB, c.value, text.length] ++ text) := rfl
  rw [create_packet_length] at hi
  rw [create_packet_cons] at hv ⊢
  cases i with
  | zero =>
    simp only [List.getD_cons_zero] at hv
    simp only [List.set_cons_zero]
    rw [parse_packet]
    rw [if_neg (by
      simp only [List.length_cons, List.length_append, List.length_nil]
      omega)]
    rw [if_pos (by
      show ¬ ([v, 0xFB] = STX)
      intro h
      apply hv
      have h0 := congrArg (fun l => l.getD 0 0) h
      simpa [STX] using h0)]
  | succ i0 =>
    cases i0 with
    | zero =>
      simp only [List.getD_cons_succ, List.getD_cons_zero] at hv
      simp only [List.set_cons_succ, List.set_cons_zero]
      rw [parse_packet]
      rw [if_neg (by
        simp only [List.length_cons, List.length_append, List.length_nil]
        omega)]
      rw [if_pos (by
        show ¬ ([0xFA, v] = STX)
        intro h
        apply hv
        have h0 := congrArg (fun l => l.getD 1 0) h
        simpa [STX] using h0)]
    | succ i1 =>
      cases i1 with
      | zero =>
        simp only [List.getD_cons_succ, List.getD_cons_zero] at hv
        simp only [List.set_cons_succ, List.set_cons_zero]
        rw [parse_packet_generic v text.length text _ rfl]
        have hc2 : calculate_xor
            (0xFA :: 0xFB :: c.value :: text.length :: text) ≠
            calculate_xor ([0xFA, 0xFB, v, text.length] ++ text) := by
          rw [hXeq, calculate_xor_append, calculate_xor_append]
          apply xor_cancel_ne_right
          simp only [calculate_xor_cons, calculate_xor_nil, Nat.xor_zero]
          apply xor_cancel_ne_left
          apply xor_cancel_ne_left
          exact xor_cancel_ne_right _ _ _ (Ne.symm hv)
        rw [if_pos hc2]
      | succ i2 =>
        cases i2 with
        | zero => exact absurd rfl hi3
        | succ j =>
          simp only [List.getD_cons_succ] at hv
          simp only [List.set_cons_succ]
          have hj5 : j < text.length + 1 := by omega
          by_cases hj : j < text.length
          · rw [List.set_append, if_pos hj]
            rw [List.getD_append _ _ _ _ hj] at hv
            rw [parse_packet_generic c.value text.length (text.set j v) _
              (List.length_set text j v)]
            have hct : calculate_xor
                (0xFA :: 0xFB :: c.value :: text.length :: text) ≠
                calculate_xor
                  ([0xFA, 0xFB, c.value, text.length] ++ text.set j v) := by
              rw [hXeq, calculate_xor_append, calculate_xor_append,
                calculate_xor_set text j v hj]
              apply xor_cancel_ne_left
              exact xor_set_ne _ _ _ (Ne.symm hv)
            rw [if_pos hct]
          · have hj' : j = text.length := by omega
            subst hj'
            rw [List.set_append, if_neg (by omega)]
            simp only [Nat.sub_self, List.set_cons_zero]
            rw [List.getD_append_right _ _ _ _ (Nat.le_refl _),
              Nat.sub_self, List.getD_cons_zero] at hv
            rw [parse_packet_generic c.value text.length text _ rfl]
            rw [if_pos (by rw [← hXeq]; exact hv)]

/-! ## C1 helper lemmas: findSTX, fuel irrelevance -/

theorem findSTX_append (g rest : List Nat) (hg : hasSTXPair g = false) :
    findSTX (g ++ (0xFA :: 0xFB :: rest)) = some g.length := by
  induction g with
  | nil => simp [findSTX]
  | cons a g ih =>
    cases g with
    | nil => simp [findSTX]
    | cons b g' =>
      have hg0 : (decide (a = 0xFA ∧ b = 0xFB) ||
          hasSTXPair (b :: g')) = false := hg
      have hsplit := Bool.or_eq_false_iff.mp hg0
      have h1 : ¬ (a = 0xFA ∧ b = 0xFB) := of_decide_eq_false hsplit.1
      have h2 := ih hsplit.2
      simp only [List.cons_append] at h2 ⊢
      rw [findSTX, if_neg h1, h2]
      simp [List.length_cons]

theorem listen_decode_nil (f : Nat) : listen_decode f [] = ([], []) := by
  cases f with
  | zero => rfl
  | succ f => simp [listen_decode]

theorem listen_decode_fuel (f : Nat) : ∀ (g : Nat) (buf : List Nat),
    buf.length ≤ f → buf.length ≤ g →
    listen_decode f buf = listen_decode g buf := by
  induction f with
  | zero =>
    intro g buf hf _
    have : buf = [] := List.eq_nil_of_length_eq_zero (Nat.le_zero.mp hf)
    subst this
    rw [listen_decode_nil, listen_decode_nil]
  | succ f ih =>
    intro g buf hf hg
    cases g with
    | zero =>
      have : buf = [] := List.eq_nil_of_length_eq_zero (Nat.le_zero.mp hg)
      subst this
      rw [listen_decode_nil, listen_decode_nil]
    | succ g' =>
      by_cases h5 : buf.length < 5
      · simp only [listen_decode, if_pos h5]
      · simp only [listen_decode, if_neg h5]
        cases hfind : findSTX buf with
        | none => rfl
        | some i =>
          simp only
          by_cases hb5 : (buf.drop i).length < 5
          · simp only [if_pos hb5]
          · simp only [if_neg hb5]
            by_cases hpl : (buf.drop i).length < 5 + (buf.drop i).getD 3 0
            · simp only [if_pos hpl]
            · simp only [if_neg hpl]
              have hrest : ((buf.drop i).drop
                  (5 + (buf.drop i).getD 3 0)).length ≤ f ∧
                  ((buf.drop i).drop
                    (5 + (buf.drop i).getD 3 0)).length ≤ g' := by
                constructor <;>
                  · simp only [List.length_drop]
                    omega
              rw [ih g' _ hrest.1 hrest.2]

/-! ## C1: resynchronisation in listen_loop -/

/-- **C1 (counterexample).** The garbage prefix `FA FB 00 04` followed
by the complete valid frame `FA FB 41 00 40` (`create_packet POLL []`)
does *not* decode to that frame: the decoder reads the garbage's
length byte `04`, slices off all 9 bytes as one candidate packet,
fails the XOR check, and discards the whole candidate — the valid
frame is swallowed and nothing is decoded (the claimed
drop-one-STX-byte resynchronisation would have recovered it). -/
theorem listen_loop_resync_counterexample :
    create_packet .POLL [] = [0xFA, 0xFB, 0x41, 0x00, 0x40] ∧
    parse_packet [0xFA, 0xFB, 0x41, 0x00, 0x40] = some (.POLL, []) ∧
    listen_loop ([0xFA, 0xFB, 0x00, 0x04] ++ [0xFA, 0xFB, 0x41, 0x00, 0x40]) =
      ([], []) :=
  ⟨by decide, by decide, by decide⟩

/-- **C1 (amended).** When the buffer holds a candidate frame whose
XOR checksum fails, the decoder discards the *entire* candidate packet
(`5 + len` bytes) and resynchronises on the remaining bytes;
consequently a garbage prefix that contains no two-byte STX sequence,
followed by a complete valid frame, decodes to exactly that frame. -/
theorem listen_loop_resync :
    (∀ (c r : List Nat), c.getD 0 0 = 0xFA → c.getD 1 0 = 0xFB →
      c.length = 5 + c.getD 3 0 → parse_packet c = none →
      listen_loop (c ++ r) = listen_loop r) ∧
    (∀ (g : List Nat) (cmd : Command) (text : List Nat),
      hasSTXPair g = false → text.length ≤ 255 → (∀ b ∈ text, b < 256) →
      listen_loop (g ++ create_packet cmd text) = ([(cmd, text)], [])) := by
  constructor
  · intro c r h0 h1 hclen hparse
    match c, hclen with
    | a0 :: a1 :: a2 :: a3 :: ctail, hclen =>
    simp only [List.getD_cons_zero] at h0
    simp only [List.getD_cons_succ, List.getD_cons_zero] at h1 hclen
    subst h0
    subst h1
    have hlen4 : ctail.length = a3 + 1 := by
      simp only [List.length_cons] at hclen
      omega
    show listen_decode _ _ = _
    have hbuflen :
        ((0xFA :: 0xFB :: a2 :: a3 :: ctail) ++ r).length =
          5 + a3 + r.length := by
      simp only [List.length_append, List.length_cons]
      omega
    cases hF : ((0xFA :: 0xFB :: a2 :: a3 :: ctail) ++ r).length with
    | zero => omega
    | succ f =>
      rw [listen_decode]
      rw [if_neg (by omega)]
      have hfind : findSTX ((0xFA :: 0xFB :: a2 :: a3 :: ctail) ++ r) =
          some 0 := by
        simp [findSTX]
      rw [hfind]
      simp only [List.drop_zero]
      rw [if_neg (by omega)]
      have hgd3 : ((0xFA :: 0xFB :: a2 :: a3 :: ctail) ++ r).getD 3 0 =
          a3 := rfl
      rw [hgd3]
      rw [if_neg (by omega)]
      have hclen' : (0xFA :: 0xFB :: a2 :: a3 :: ctail).length = 5 + a3 := by
        simp only [List.length_cons]
        omega
      have htake : ((0xFA :: 0xFB :: a2 :: a3 :: ctail) ++ r).take (5 + a3) =
          0xFA :: 0xFB :: a2 :: a3 :: ctail := by
        rw [← hclen']
        exact List.take_left _ _
      have hdrop : ((0xFA :: 0xFB :: a2 :: a3 :: ctail) ++ r).drop (5 + a3) =
          r := by
        rw [← hclen']
        exact List.drop_left _ _
      rw [htake, hdrop, hparse]
      exact listen_decode_fuel f r.length r (by omega) (Nat.le_refl _)
  · intro g cmd text hg hlen hbytes
    have hcons := create_packet_cons cmd text
    have hflen : (create_packet cmd text).length = 5 + text.length :=
      create_packet_length cmd text
    show listen_decode _ _ = _
    have hbuflen : (g ++ create_packet cmd text).length =
        g.length + (5 + text.length) := by
      simp only [List.length_append]
      omega
    cases hF : (g ++ create_packet cmd text).length with
    | zero => omega
    | succ f =>
      rw [listen_decode]
      rw [if_neg (by omega)]
      have hfind : findSTX (g ++ create_packet cmd text) = some g.length := by
        rw [hcons]
        exact findSTX_append g _ hg
      rw [hfind]
      have hdropg : (g ++ create_packet cmd text).drop g.length =
          create_packet cmd text := List.drop_left _ _
      simp only [hdropg]
      rw [if_neg (by omega)]
      have hgd3 : (create_packet cmd text).getD 3 0 = text.length := by
        rw [hcons]
        rfl
      rw [hgd3]
      rw [if_neg (by omega)]
      have htake : (create_packet cmd text).take (5 + text.length) =
          create_packet cmd text := by
        rw [← hflen]
        exact List.take_length _
      have hdrop : (create_packet cmd text).drop (5 + text.length) = [] := by
        rw [← hflen]
        exact List.drop_length _
      rw [htake, hdrop, listen_decode_nil,
        parse_create_packet_aux cmd text hlen hbytes]

/-- Witness for C1 (amended): the whole-candidate discard evaluated on
the counterexample's 9-byte stream, and resynchronisation over the
STX-free garbage `AA BB CC` before a CHECK_AISLE frame. -/
theorem listen_loop_resync_witness :
    listen_loop ([0xFA, 0xFB, 0x00, 0x04, 0xFA, 0xFB, 0x41, 0x00, 0x40] ++
        [0xFA, 0xFB, 0x41, 0x00, 0x40]) =
      listen_loop [0xFA, 0xFB, 0x41, 0x00, 0x40] ∧
    listen_loop ([0xAA, 0xBB, 0xCC] ++ create_packet .CHECK_AISLE [0x01, 0x00, 0x05]) =
      ([(.CHECK_AISLE, [0x01, 0x00, 0x05])], []) :=
  ⟨listen_loop_resync.1 [0xFA, 0xFB, 0x00, 0x04, 0xFA, 0xFB, 0x41, 0x00, 0x40]
      [0xFA, 0xFB, 0x41, 0x00, 0x40] (by decide) (by decide) (by decide)
      (by decide),
   listen_loop_resync.2 [0xAA, 0xBB, 0xCC] .CHECK_AISLE [0x01, 0x00, 0x05]
      (by decide) (by decide) (by decide)⟩

/-- Witness for C3 (amended): corrupting byte 0 of the encoded POLL
frame to `0x00` is rejected. -/
theorem parse_packet_rejects_single_flip_witness :
    (0 : Nat) < (create_packet .POLL []).length ∧ (0 : Nat) ≠ 3 ∧
    parse_packet ((create_packet .POLL []).set 0 0) = none :=
  ⟨by decide, by decide,
   parse_packet_rejects_single_flip .POLL [] (by decide) (by decide) 0 0
     (by decide) (by decide) (by decide) (by decide)⟩

end VMC
